import Mathlib

/-!
Verification of the Chatbot-THT webhook relay (src/app.py).

The program is a Flask application with a single interesting route,
`/webhook`, plus an outbound helper `send_fonnte_reply`.  We embed the
request handler and the sender as pure Lean functions over an explicit
environment that records the process-wide configuration (the Fonnte API
token, whether the Gemini model was configured at startup) together with
the outcome of the two external HTTP interactions (the Gemini completion
call and the Fonnte send call).  The handler returns, besides the HTTP
response, a trace of the outbound-send calls it issued and the number of
completion calls it made, so that side-effect claims become statements
about that trace.
-/

namespace ChatbotTHT

/-- Python truthiness of a possibly-absent string, as used by
`if not FONTE_API_TOKEN` (app.py line 58) and `if not user_message`
(app.py line 104): `None` and the empty string are falsy. -/
def truthy : Option String → Bool
  | none => false
  | some s => !(s == "")

/-- Outcome of a `model.generate_content(user_message)` call followed by
the `response.text` extraction (app.py lines 119-121): either the reply
text, or some exception was raised along the way. -/
inductive GenOutcome where
  | ok : String → GenOutcome
  | raised : GenOutcome
  deriving DecidableEq, Repr

/-- Outcome of the single `requests.post` call inside `send_fonnte_reply`
(app.py line 72): either the transport raised a
`requests.exceptions.RequestException`, or a final response (after any
redirect handling by `requests`) with the given status code was
produced.  The boolean records whether that response's body parses as
JSON: the success-path log line calls `response.json()` (app.py line
74), which raises a `requests.exceptions.JSONDecodeError` — itself a
`RequestException` — when the body is not parseable JSON, e.g. on a
bodyless 304. -/
inductive HttpAttempt where
  | exn : HttpAttempt
  | resp : Nat → Bool → HttpAttempt
  deriving DecidableEq, Repr

/-- Process environment of app.py: the two secrets-derived configuration
items fixed at startup, plus the behaviour of the two external services
during the request under consideration.

* `FONTE_API_TOKEN` — the value of the environment variable (app.py
  line 18); `none` models an unset variable.
* `modelConfigured` — whether the `genai` configuration block succeeded,
  i.e. whether `model` is not `None` (app.py lines 28-52).
* `generate_content` — the combined outcome of
  `model.generate_content(user_message)` followed by `response.text`
  (app.py lines 119-121): either the extracted reply text, or an
  exception.
* `fonnteHttp` — the outcome of the `requests.post` call to the Fonnte
  send endpoint, should one be attempted: transport exception, or final
  status code together with whether the response body parses as JSON. -/
structure Env where
  FONTE_API_TOKEN : Option String
  modelConfigured : Bool
  generate_content : GenOutcome
  fonnteHttp : HttpAttempt
  deriving DecidableEq, Repr

/-- Embedding of `send_fonnte_reply(target, message)` (app.py lines
55-79).  The first component is the Python return value; the second is
the list of outbound HTTP POST delivery attempts the call performed,
each recorded as the `target` and `message` form fields it carried.

The Python function never raises: every statement inside the `try`
that can raise — `requests.post`, `response.raise_for_status()`, and
the `response.json()` in the success-path log line — raises a
`requests.exceptions.RequestException`, which the `except` clause
converts into `return False`.  `response.raise_for_status()` raises
exactly when the status code is in the 4xx or 5xx range
(400 ≤ code < 600); past it, `response.json()` raises
`requests.exceptions.JSONDecodeError` (a `RequestException`) when the
body is not parseable JSON, so the function returns `True` only when
the response both escapes `raise_for_status` and carries a
JSON-parseable body.  The `target` may be `None` (the caller passes
`data.get("sender")` through unchecked), which the function forwards
into the form payload without inspection. -/
def send_fonnte_reply (env : Env) (target : Option String) (message : String) :
    Bool × List (Option String × String) :=
  if !truthy env.FONTE_API_TOKEN then (false, [])
  else
    match env.fonnteHttp with
    | HttpAttempt.exn => (false, [(target, message)])
    | HttpAttempt.resp code jsonOk =>
        if 400 ≤ code ∧ code < 600 then (false, [(target, message)])
        else if jsonOk then (true, [(target, message)])
        else (false, [(target, message)])

/-- HTTP method of a request reaching the `webhook` view function.
`OTHER` stands for any method string different from GET and POST. -/
inductive Method where
  | GET : Method
  | POST : Method
  | OTHER : Method
  deriving DecidableEq, Repr

/-- The JSON object body of a webhook POST, restricted to the two fields
the handler reads via `data.get(...)` (app.py lines 103 and 109).  A
`none` field models an absent key, for which `dict.get` returns `None`. -/
structure JsonBody where
  message : Option String
  sender : Option String
  deriving DecidableEq, Repr

/-- A request to the `/webhook` endpoint: its method, and its parsed
JSON body when `request.is_json` holds (`none` models a non-JSON body,
for which the handler returns 400 before calling `request.get_json`). -/
structure HttpRequest where
  method : Method
  jsonBody : Option JsonBody
  deriving DecidableEq, Repr

/-- An HTTP response as produced by `jsonify(...), code`: the status
code and the JSON object body as a key-value list. -/
structure HttpResponse where
  statusCode : Nat
  body : List (String × String)
  deriving DecidableEq, Repr

/-- Observable result of one execution of the `webhook` view function:
the single HTTP response returned to the caller, the list of
`send_fonnte_reply` calls issued (target and message, in order), the
return value of each of those calls, and the number of
`model.generate_content` calls made. -/
structure WebhookResult where
  response : HttpResponse
  sends : List (Option String × String)
  sendReturns : List Bool
  genCalls : Nat
  deriving DecidableEq, Repr

/-- The fixed service-unavailable fallback text (app.py line 113). -/
def FALLBACK_UNAVAILABLE : String :=
  "Maaf, layanan chatbot sedang mengalami gangguan. Silakan coba lagi nanti."

/-- The fixed generic-error fallback text (app.py line 131). -/
def FALLBACK_ERROR : String :=
  "Maaf, terjadi kesalahan saat memproses permintaan Anda."

/-- Embedding of the `webhook()` view function (app.py lines 82-135).

Control flow, in source order: GET requests get the fixed verification
payload (lines 88-91); POST requests are rejected with 400 when not
JSON (lines 95-97); an absent or empty `message` field is classified as
a status update and acknowledged with 200 (lines 103-106); if the model
is not configured the fixed unavailable fallback is sent and 500
returned (lines 111-114); otherwise the completion call is made and, on
success, its text forwarded and 200 returned (lines 116-127); any
exception from the completion call yields the fixed error fallback and
500 (lines 129-132); any other method falls through to the 405 response
(lines 134-135).  The return value of each `send_fonnte_reply` call is
discarded by the handler, which the trace records in `sendReturns`. -/
def webhook (env : Env) (req : HttpRequest) : WebhookResult :=
  match req.method with
  | Method.GET =>
      { response := ⟨200, [("status", "success"),
          ("message", "Webhook is active and ready for POST requests.")]⟩,
        sends := [], sendReturns := [], genCalls := 0 }
  | Method.POST =>
      match req.jsonBody with
      | none =>
          { response := ⟨400, [("status", "error"),
              ("message", "Request must be JSON")]⟩,
            sends := [], sendReturns := [], genCalls := 0 }
      | some data =>
          if !truthy data.message then
            { response := ⟨200, [("status", "ok"),
                ("message", "Status update received")]⟩,
              sends := [], sendReturns := [], genCalls := 0 }
          else
            if !env.modelConfigured then
              { response := ⟨500, [("status", "error"),
                  ("message", "Model not configured")]⟩,
                sends := [(data.sender, FALLBACK_UNAVAILABLE)],
                sendReturns :=
                  [(send_fonnte_reply env data.sender FALLBACK_UNAVAILABLE).1],
                genCalls := 0 }
            else
              match env.generate_content with
              | GenOutcome.ok ai_reply =>
                  { response := ⟨200, [("status", "success")]⟩,
                    sends := [(data.sender, ai_reply)],
                    sendReturns :=
                      [(send_fonnte_reply env data.sender ai_reply).1],
                    genCalls := 1 }
              | GenOutcome.raised =>
                  { response := ⟨500, [("status", "error"),
                      ("message", "Internal server error")]⟩,
                    sends := [(data.sender, FALLBACK_ERROR)],
                    sendReturns :=
                      [(send_fonnte_reply env data.sender FALLBACK_ERROR).1],
                    genCalls := 1 }
  | Method.OTHER =>
      { response := ⟨405, [("status", "error"),
          ("message", "Method not allowed")]⟩,
        sends := [], sendReturns := [], genCalls := 0 }

/-- HTTP method of a request as it arrives at the endpoint, before
routing.  `other` covers every method besides the four named ones
(PUT, DELETE, PATCH, ...). -/
inductive WireMethod where
  | GET : WireMethod
  | POST : WireMethod
  | HEAD : WireMethod
  | OPTIONS : WireMethod
  | other : WireMethod
  deriving DecidableEq, Repr

/-- What the endpoint answers a request with: either the view function
ran and produced a `WebhookResult`, or the framework answered before
the view.  `autoOptions` is the automatic OPTIONS response (HTTP 200
with an `Allow` header, empty body); `methodNotAllowed` is Werkzeug's
`MethodNotAllowed` response (HTTP 405 with Werkzeug's default HTML
body, not the JSON body produced at app.py line 135). -/
inductive DispatchOutcome where
  | viewResult : WebhookResult → DispatchOutcome
  | autoOptions : DispatchOutcome
  | methodNotAllowed : DispatchOutcome
  deriving DecidableEq, Repr

/-- HTTP status code of a dispatch outcome. -/
def DispatchOutcome.statusCode : DispatchOutcome → Nat
  | DispatchOutcome.viewResult r => r.response.statusCode
  | DispatchOutcome.autoOptions => 200
  | DispatchOutcome.methodNotAllowed => 405

/-- Outbound-send calls issued while answering the request: none when
the framework answers before the view runs. -/
def DispatchOutcome.sends : DispatchOutcome → List (Option String × String)
  | DispatchOutcome.viewResult r => r.sends
  | DispatchOutcome.autoOptions => []
  | DispatchOutcome.methodNotAllowed => []

/-- Completion calls made while answering the request: none when the
framework answers before the view runs. -/
def DispatchOutcome.genCalls : DispatchOutcome → Nat
  | DispatchOutcome.viewResult r => r.genCalls
  | DispatchOutcome.autoOptions => 0
  | DispatchOutcome.methodNotAllowed => 0

/-- Embedding of the routing layer in front of the view: the
`@app.route` decorator registers `webhook` with
`methods=['POST', 'GET']` (app.py line 82), and Flask/Werkzeug then
dispatch as documented for such a rule: GET and POST run the view;
HEAD is implicitly allowed alongside GET and runs the view with
`request.method == 'HEAD'`, which matches neither the GET nor the POST
branch and so falls through to the 405 fallback (the response body
being stripped on the wire for HEAD is transport behaviour below this
model); OPTIONS is answered automatically by the framework
(`provide_automatic_options` defaults to true) with HTTP 200 and never
reaches the view; every other method is rejected by the router with
Werkzeug's `MethodNotAllowed` (HTTP 405, default HTML body) and never
reaches the view. -/
def flask_dispatch (env : Env) (m : WireMethod) (body : Option JsonBody) :
    DispatchOutcome :=
  match m with
  | WireMethod.GET => DispatchOutcome.viewResult (webhook env ⟨Method.GET, body⟩)
  | WireMethod.POST => DispatchOutcome.viewResult (webhook env ⟨Method.POST, body⟩)
  | WireMethod.HEAD => DispatchOutcome.viewResult (webhook env ⟨Method.OTHER, body⟩)
  | WireMethod.OPTIONS => DispatchOutcome.autoOptions
  | WireMethod.other => DispatchOutcome.methodNotAllowed

/-- Claim C1: for every POST to `/webhook` whose JSON body has a non-empty
`message`, when the model is configured and the completion call succeeds
with reply `r`, the handler returns HTTP 200 with body
{"status": "success"} and issues exactly one outbound-send call carrying
`r` to the payload's sender.  The environment `env` is universally
quantified, so the fixed response holds for every Fonnte token and every
send outcome: the boolean result of the send cannot change the HTTP
status code or body. -/
theorem webhook_success_path (env : Env) (data : JsonBody) (r : String)
    (hmsg : truthy data.message = true)
    (hmodel : env.modelConfigured = true)
    (hgen : env.generate_content = GenOutcome.ok r) :
    (webhook env ⟨Method.POST, some data⟩).response =
      ⟨200, [("status", "success")]⟩ ∧
    (webhook env ⟨Method.POST, some data⟩).sends = [(data.sender, r)] := by
  simp [webhook, hmsg, hmodel, hgen]

/-- Witness for `webhook_success_path` at a concrete request, environment
and reply. -/
theorem webhook_success_path_witness :
    (webhook ⟨some "tok", true, GenOutcome.ok "Tonsilitis adalah...", HttpAttempt.resp 200 true⟩
      ⟨Method.POST, some ⟨some "apa itu tonsilitis?", some "628123"⟩⟩).response =
      ⟨200, [("status", "success")]⟩ ∧
    (webhook ⟨some "tok", true, GenOutcome.ok "Tonsilitis adalah...", HttpAttempt.resp 200 true⟩
      ⟨Method.POST, some ⟨some "apa itu tonsilitis?", some "628123"⟩⟩).sends =
      [(some "628123", "Tonsilitis adalah...")] :=
  webhook_success_path
    ⟨some "tok", true, GenOutcome.ok "Tonsilitis adalah...", HttpAttempt.resp 200 true⟩
    ⟨some "apa itu tonsilitis?", some "628123"⟩ "Tonsilitis adalah..."
    (by decide) rfl rfl

/-- Claim C2: for every POST to `/webhook` whose JSON body has a non-empty
`message`, when the model is configured but the completion call raises,
the handler returns HTTP 500 with body
{"status": "error", "message": "Internal server error"} and issues exactly
one outbound-send call to the sender carrying the fixed generic-error
fallback text. -/
theorem webhook_completion_failure_path (env : Env) (data : JsonBody)
    (hmsg : truthy data.message = true)
    (hmodel : env.modelConfigured = true)
    (hgen : env.generate_content = GenOutcome.raised) :
    (webhook env ⟨Method.POST, some data⟩).response =
      ⟨500, [("status", "error"), ("message", "Internal server error")]⟩ ∧
    (webhook env ⟨Method.POST, some data⟩).sends =
      [(data.sender, FALLBACK_ERROR)] := by
  simp [webhook, hmsg, hmodel, hgen]

/-- Witness for `webhook_completion_failure_path` at a concrete request
and environment. -/
theorem webhook_completion_failure_path_witness :
    (webhook ⟨some "tok", true, GenOutcome.raised, HttpAttempt.resp 200 true⟩
      ⟨Method.POST, some ⟨some "halo", some "628123"⟩⟩).response =
      ⟨500, [("status", "error"), ("message", "Internal server error")]⟩ ∧
    (webhook ⟨some "tok", true, GenOutcome.raised, HttpAttempt.resp 200 true⟩
      ⟨Method.POST, some ⟨some "halo", some "628123"⟩⟩).sends =
      [(some "628123", FALLBACK_ERROR)] :=
  webhook_completion_failure_path
    ⟨some "tok", true, GenOutcome.raised, HttpAttempt.resp 200 true⟩
    ⟨some "halo", some "628123"⟩ (by decide) rfl rfl

/-- Claim C3: for every POST to `/webhook` whose JSON body has a non-empty
`message`, when the completion client failed to configure at startup, the
handler makes no completion call, issues exactly one outbound-send call to
the sender carrying the fixed service-unavailable fallback text, and
returns HTTP 500 with body
{"status": "error", "message": "Model not configured"}. -/
theorem webhook_model_unavailable_path (env : Env) (data : JsonBody)
    (hmsg : truthy data.message = true)
    (hmodel : env.modelConfigured = false) :
    (webhook env ⟨Method.POST, some data⟩).response =
      ⟨500, [("status", "error"), ("message", "Model not configured")]⟩ ∧
    (webhook env ⟨Method.POST, some data⟩).sends =
      [(data.sender, FALLBACK_UNAVAILABLE)] ∧
    (webhook env ⟨Method.POST, some data⟩).genCalls = 0 := by
  simp [webhook, hmsg, hmodel]

/-- Witness for `webhook_model_unavailable_path` at a concrete request
and environment. -/
theorem webhook_model_unavailable_path_witness :
    (webhook ⟨some "tok", false, GenOutcome.raised, HttpAttempt.resp 200 true⟩
      ⟨Method.POST, some ⟨some "halo", some "628123"⟩⟩).response =
      ⟨500, [("status", "error"), ("message", "Model not configured")]⟩ ∧
    (webhook ⟨some "tok", false, GenOutcome.raised, HttpAttempt.resp 200 true⟩
      ⟨Method.POST, some ⟨some "halo", some "628123"⟩⟩).sends =
      [(some "628123", FALLBACK_UNAVAILABLE)] ∧
    (webhook ⟨some "tok", false, GenOutcome.raised, HttpAttempt.resp 200 true⟩
      ⟨Method.POST, some ⟨some "halo", some "628123"⟩⟩).genCalls = 0 :=
  webhook_model_unavailable_path
    ⟨some "tok", false, GenOutcome.raised, HttpAttempt.resp 200 true⟩
    ⟨some "halo", some "628123"⟩ (by decide) rfl

/-- Claim C4: for every POST to `/webhook` whose JSON body has an absent
or empty `message` field, the handler classifies it as a status callback:
it returns HTTP 200 with body
{"status": "ok", "message": "Status update received"}, makes no completion
call, and issues zero outbound-send calls. -/
theorem webhook_status_update_path (env : Env) (data : JsonBody)
    (hmsg : truthy data.message = false) :
    webhook env ⟨Method.POST, some data⟩ =
      { response := ⟨200, [("status", "ok"), ("message", "Status update received")]⟩,
        sends := [], sendReturns := [], genCalls := 0 } := by
  simp [webhook, hmsg]

/-- Witness for `webhook_status_update_path` on a status-event payload
without a `message` key. -/
theorem webhook_status_update_path_witness :
    webhook ⟨some "tok", true, GenOutcome.ok "x", HttpAttempt.resp 200 true⟩
      ⟨Method.POST, some ⟨none, none⟩⟩ =
      { response := ⟨200, [("status", "ok"), ("message", "Status update received")]⟩,
        sends := [], sendReturns := [], genCalls := 0 } :=
  webhook_status_update_path
    ⟨some "tok", true, GenOutcome.ok "x", HttpAttempt.resp 200 true⟩
    ⟨none, none⟩ rfl

/-- Claim C5: every POST payload classified as a genuine message (JSON
body with a non-empty `message`) leads to exactly one outbound-send call,
whose target is the payload's sender and whose text is either the
generated reply or one of the two fixed fallback strings, on all three
paths (success, model unavailable, completion raised).  The embedding
returns exactly one `HttpResponse` by construction, so exactly one HTTP
response reaches the webhook caller. -/
theorem webhook_one_reply_invariant (env : Env) (data : JsonBody)
    (hmsg : truthy data.message = true) :
    (webhook env ⟨Method.POST, some data⟩).sends.length = 1 ∧
    ∀ p ∈ (webhook env ⟨Method.POST, some data⟩).sends,
      p.1 = data.sender ∧
      (p.2 = FALLBACK_UNAVAILABLE ∨ p.2 = FALLBACK_ERROR ∨
        env.generate_content = GenOutcome.ok p.2) := by
  cases hb : env.modelConfigured with
  | false => simp [webhook, hmsg, hb]
  | true =>
    cases hg : env.generate_content with
    | ok r => simp [webhook, hmsg, hb, hg]
    | raised => simp [webhook, hmsg, hb, hg]

/-- Witness for `webhook_one_reply_invariant` at a concrete request and
environment. -/
theorem webhook_one_reply_invariant_witness :
    (webhook ⟨none, true, GenOutcome.raised, HttpAttempt.exn⟩
      ⟨Method.POST, some ⟨some "halo", some "628123"⟩⟩).sends.length = 1 ∧
    ∀ p ∈ (webhook ⟨none, true, GenOutcome.raised, HttpAttempt.exn⟩
      ⟨Method.POST, some ⟨some "halo", some "628123"⟩⟩).sends,
      p.1 = some "628123" ∧
      (p.2 = FALLBACK_UNAVAILABLE ∨ p.2 = FALLBACK_ERROR ∨
        GenOutcome.raised = GenOutcome.ok p.2) :=
  webhook_one_reply_invariant ⟨none, true, GenOutcome.raised, HttpAttempt.exn⟩
    ⟨some "halo", some "628123"⟩ (by decide)

/-- Claim C6 counterexample: the claim says `send_fonnte_reply` returns
true only on a 2xx response, but `response.raise_for_status()` raises
only for status codes in [400, 600) and `response.json()` succeeds on
any JSON-parseable body, so a final 300 response carrying a JSON body
(a status `requests` does not follow as a redirect) makes the function
return `True` after one delivery attempt, although 300 is not 2xx. -/
theorem send_fonnte_reply_non2xx_counterexample :
    (send_fonnte_reply ⟨some "tok", true, GenOutcome.ok "x", HttpAttempt.resp 300 true⟩
      (some "628123") "halo").1 = true ∧
    ¬ (200 ≤ 300 ∧ 300 < 300) := by
  decide

/-- Claim C6 as amended: if the authorization credential is absent,
`send_fonnte_reply` returns false immediately with no delivery attempt;
otherwise it performs at most one HTTP POST delivery attempt, carrying
the provided target and message; it treats any transport error, any
response with status code in [400, 600), and any response whose body
does not parse as JSON as failure (returns false); it returns true
precisely when the credential is present and the final response has a
status code that `raise_for_status` does not reject together with a
JSON-parseable body — which covers every 2xx delivery but also non-2xx
cases such as a 300 with a JSON body.  The function is total in the
embedding, mirroring that every `requests.exceptions.RequestException`
is caught and no exception escapes to the caller. -/
theorem send_fonnte_reply_contract (env : Env) (target : Option String)
    (msg : String) :
    (truthy env.FONTE_API_TOKEN = false →
      send_fonnte_reply env target msg = (false, [])) ∧
    (send_fonnte_reply env target msg).2.length ≤ 1 ∧
    (∀ p ∈ (send_fonnte_reply env target msg).2, p = (target, msg)) ∧
    (env.fonnteHttp = HttpAttempt.exn →
      (send_fonnte_reply env target msg).1 = false) ∧
    (∀ code j, env.fonnteHttp = HttpAttempt.resp code j →
      400 ≤ code → code < 600 →
      (send_fonnte_reply env target msg).1 = false) ∧
    (∀ code, env.fonnteHttp = HttpAttempt.resp code false →
      (send_fonnte_reply env target msg).1 = false) ∧
    (∀ code, env.fonnteHttp = HttpAttempt.resp code true →
      ¬ (400 ≤ code ∧ code < 600) →
      truthy env.FONTE_API_TOKEN = true →
      (send_fonnte_reply env target msg).1 = true) := by
  unfold send_fonnte_reply
  cases ht : truthy env.FONTE_API_TOKEN with
  | false => simp
  | true =>
    cases hh : env.fonnteHttp with
    | exn => simp
    | resp code j =>
      by_cases hc : 400 ≤ code ∧ code < 600
      · refine ⟨by simp, by simp [hc], by simp [hc], by simp, ?_, ?_, ?_⟩
        · intro c j' h1 h2 h3
          simp [hc]
        · intro c h1
          simp [hc]
        · intro c h1 h2 h3
          rw [HttpAttempt.resp.injEq] at h1
          obtain ⟨rfl, rfl⟩ := h1
          exact absurd hc h2
      · cases j with
        | false =>
          refine ⟨by simp, by simp [hc], by simp [hc], by simp, ?_, ?_, ?_⟩
          · intro c j' h1 h2 h3
            rw [HttpAttempt.resp.injEq] at h1
            obtain ⟨rfl, rfl⟩ := h1
            exact absurd ⟨h2, h3⟩ hc
          · intro c h1
            simp [hc]
          · intro c h1 h2 h3
            rw [HttpAttempt.resp.injEq] at h1
            exact absurd h1.2 (by simp)
        | true =>
          refine ⟨by simp, by simp [hc], by simp [hc], by simp, ?_, ?_, ?_⟩
          · intro c j' h1 h2 h3
            rw [HttpAttempt.resp.injEq] at h1
            obtain ⟨rfl, rfl⟩ := h1
            exact absurd ⟨h2, h3⟩ hc
          · intro c h1
            rw [HttpAttempt.resp.injEq] at h1
            exact absurd h1.2 (by simp)
          · intro c h1 h2 h3
            simp [hc]

/-- Witness for `send_fonnte_reply_contract`: with no token configured,
the call fails without any delivery attempt. -/
theorem send_fonnte_reply_contract_witness :
    send_fonnte_reply ⟨none, true, GenOutcome.ok "x", HttpAttempt.resp 200 true⟩
      none "hi" = (false, []) :=
  (send_fonnte_reply_contract ⟨none, true, GenOutcome.ok "x", HttpAttempt.resp 200 true⟩
    none "hi").1 rfl

/-- Claim C7: a POST to `/webhook` whose body is not JSON is rejected
with HTTP 400 and body {"status": "error", "message": "Request must be JSON"},
with no completion call and zero outbound-send calls: the handler returns
before the classification step. -/
theorem webhook_non_json_post (env : Env) :
    webhook env ⟨Method.POST, none⟩ =
      { response := ⟨400, [("status", "error"), ("message", "Request must be JSON")]⟩,
        sends := [], sendReturns := [], genCalls := 0 } :=
  rfl

/-- Claim C8 counterexample: the claim asserts that every request to
`/webhook` with a method other than GET and POST is answered HTTP 405
with the JSON method-not-allowed body, but the route is registered with
`methods=['POST', 'GET']`, so an OPTIONS request is answered
automatically by the framework with HTTP 200 before the view runs. -/
theorem webhook_options_counterexample :
    flask_dispatch ⟨some "tok", true, GenOutcome.ok "x", HttpAttempt.resp 200 true⟩
      WireMethod.OPTIONS none = DispatchOutcome.autoOptions ∧
    DispatchOutcome.statusCode
      (flask_dispatch ⟨some "tok", true, GenOutcome.ok "x", HttpAttempt.resp 200 true⟩
        WireMethod.OPTIONS none) = 200 ∧
    (200 : Nat) ≠ 405 := by
  decide

/-- Claim C8 as amended: of the methods other than GET and POST, only
HEAD reaches the `webhook` view function, where it matches neither
branch and falls through to HTTP 405 with the JSON body
{"status": "error", "message": "Method not allowed"} and no side
effects; an OPTIONS request is answered automatically by the framework
with HTTP 200, and every other method is rejected by the router with
HTTP 405 and its default body (not this JSON body), the view never
running; in every such case no completion call and no outbound-send
call is made. -/
theorem webhook_dispatch_non_get_post (env : Env) (b : Option JsonBody) :
    flask_dispatch env WireMethod.HEAD b =
      DispatchOutcome.viewResult
        { response := ⟨405, [("status", "error"), ("message", "Method not allowed")]⟩,
          sends := [], sendReturns := [], genCalls := 0 } ∧
    flask_dispatch env WireMethod.OPTIONS b = DispatchOutcome.autoOptions ∧
    flask_dispatch env WireMethod.other b = DispatchOutcome.methodNotAllowed ∧
    DispatchOutcome.statusCode (flask_dispatch env WireMethod.OPTIONS b) = 200 ∧
    DispatchOutcome.statusCode (flask_dispatch env WireMethod.other b) = 405 ∧
    DispatchOutcome.sends (flask_dispatch env WireMethod.HEAD b) = [] ∧
    DispatchOutcome.genCalls (flask_dispatch env WireMethod.HEAD b) = 0 ∧
    DispatchOutcome.sends (flask_dispatch env WireMethod.OPTIONS b) = [] ∧
    DispatchOutcome.genCalls (flask_dispatch env WireMethod.OPTIONS b) = 0 ∧
    DispatchOutcome.sends (flask_dispatch env WireMethod.other b) = [] ∧
    DispatchOutcome.genCalls (flask_dispatch env WireMethod.other b) = 0 :=
  ⟨rfl, rfl, rfl, rfl, rfl, rfl, rfl, rfl, rfl, rfl, rfl⟩

/-- Claim C9: a GET to `/webhook` always returns HTTP 200 with the fixed
verification body, performs no completion call and issues zero
outbound-send calls, whatever the body and environment. -/
theorem webhook_get_verification (env : Env) (b : Option JsonBody) :
    webhook env ⟨Method.GET, b⟩ =
      { response := ⟨200, [("status", "success"),
          ("message", "Webhook is active and ready for POST requests.")]⟩,
        sends := [], sendReturns := [], genCalls := 0 } :=
  rfl

/-- Claim C10: a POST whose JSON body has a non-empty `message` but no
`sender` key is not rejected: `data.get("sender")` yields `None`, the
handler proceeds, the single outbound-send call targets that `None`
value, and the HTTP response is identical to the one for the same body
with any sender present — on all three paths, since the environment is
arbitrary. -/
theorem webhook_missing_sender (env : Env) (m : String) (s : String)
    (hmsg : truthy (some m) = true) :
    (webhook env ⟨Method.POST, some ⟨some m, none⟩⟩).response =
      (webhook env ⟨Method.POST, some ⟨some m, some s⟩⟩).response ∧
    (webhook env ⟨Method.POST, some ⟨some m, none⟩⟩).sends.map Prod.fst =
      [none] ∧
    (webhook env ⟨Method.POST, some ⟨some m, none⟩⟩).sends.map Prod.snd =
      (webhook env ⟨Method.POST, some ⟨some m, some s⟩⟩).sends.map Prod.snd := by
  cases hb : env.modelConfigured with
  | false => simp [webhook, hmsg, hb]
  | true =>
    cases hg : env.generate_content with
    | ok r => simp [webhook, hmsg, hb, hg]
    | raised => simp [webhook, hmsg, hb, hg]

/-- Witness for `webhook_missing_sender` at a concrete message, sender
and environment. -/
theorem webhook_missing_sender_witness :
    (webhook ⟨some "tok", true, GenOutcome.ok "balasan", HttpAttempt.resp 200 true⟩
      ⟨Method.POST, some ⟨some "halo", none⟩⟩).response =
      (webhook ⟨some "tok", true, GenOutcome.ok "balasan", HttpAttempt.resp 200 true⟩
        ⟨Method.POST, some ⟨some "halo", some "628123"⟩⟩).response ∧
    (webhook ⟨some "tok", true, GenOutcome.ok "balasan", HttpAttempt.resp 200 true⟩
      ⟨Method.POST, some ⟨some "halo", none⟩⟩).sends.map Prod.fst = [none] ∧
    (webhook ⟨some "tok", true, GenOutcome.ok "balasan", HttpAttempt.resp 200 true⟩
      ⟨Method.POST, some ⟨some "halo", none⟩⟩).sends.map Prod.snd =
      (webhook ⟨some "tok", true, GenOutcome.ok "balasan", HttpAttempt.resp 200 true⟩
        ⟨Method.POST, some ⟨some "halo", some "628123"⟩⟩).sends.map Prod.snd :=
  webhook_missing_sender
    ⟨some "tok", true, GenOutcome.ok "balasan", HttpAttempt.resp 200 true⟩
    "halo" "628123" (by decide)

end ChatbotTHT
